import Mathlib

/-!
Verification development for the youtube-music-sync repository (src/main.py).

The Python program is embedded shallowly: each source function becomes a Lean
definition over explicit state, and the claims of the specification are settled
as theorems about those definitions.  The external collaborators (YTMusic API,
yt-dlp engine, tqdm display, filesystem) are modelled by their observable
interactions: the engine's progress-hook event stream is an input list of
events, the playlist file is the list of lines appended during the run, and
the tqdm bars are their (total, n) counters.
-/

set_option autoImplicit false

/-- Substring test helper: does the pattern occur at the head of the haystack? -/
def leadsWith : List Char → List Char → Bool
  | [], _ => true
  | _ :: _, [] => false
  | p :: ps, c :: cs => (p == c) && leadsWith ps cs

/-- Substring occurrence anywhere in the haystack (Python `pat in hay`). -/
def containsSub (pat : List Char) : List Char → Bool
  | [] => leadsWith pat []
  | c :: cs => leadsWith pat (c :: cs) || containsSub pat cs

/-- Python `pat in hay` on strings. -/
def strContains (hay pat : String) : Bool :=
  containsSub pat.toList hay.toList

/-- A track from the remote playlist, as consumed by `build_download_queue`:
`track.get("title", ...)` and `track.get("videoId")` read two optional fields. -/
structure Track where
  title : Option String
  videoId : Option String
deriving DecidableEq

/-- Embedding of `build_download_queue(tracks, already_downloaded)` from
src/main.py.  Python `if not video_id: continue` skips both a missing
`videoId` key and an empty-string `videoId` (both are falsy); otherwise the
track is queued unless some local filename contains the token `[videoId]`. -/
def build_download_queue : List Track → List String → List String
  | [], _ => []
  | track :: rest, already =>
    match track.videoId with
    | none => build_download_queue rest already
    | some vid =>
      if vid = "" then
        build_download_queue rest already
      else if already.any (fun filename => strContains filename ("[" ++ vid ++ "]")) then
        build_download_queue rest already
      else
        ("https://music.youtube.com/watch?v=" ++ vid) :: build_download_queue rest already

/-- The watch URL derived from a track, as built in `build_download_queue`. -/
def trackUrl (t : Track) : String :=
  "https://music.youtube.com/watch?v=" ++ t.videoId.getD ""

/-- Does the track's bracketed token `[videoId]` occur in some local filename? -/
def tokenMatches (already : List String) (vid : String) : Bool :=
  already.any (fun filename => strContains filename ("[" ++ vid ++ "]"))

/-- The claim's wording of the per-track queueing test: the identifier is
PRESENT (regardless of its value) and the bracketed token matches no local
filename. -/
def keepTrackClaim (already : List String) (t : Track) : Bool :=
  match t.videoId with
  | none => false
  | some vid => !(tokenMatches already vid)

/-- The claim's wording of the queue builder. -/
def queue_claim (tracks : List Track) (already : List String) : List String :=
  (tracks.filter (keepTrackClaim already)).map trackUrl

/-- The amended wording of the per-track queueing test: the identifier is
present AND NON-EMPTY and the bracketed token matches no local filename. -/
def keepTrack (already : List String) (t : Track) : Bool :=
  match t.videoId with
  | none => false
  | some vid => !(vid == "") && !(tokenMatches already vid)

/-- The amended wording of the queue builder. -/
def queue_spec (tracks : List Track) (already : List String) : List String :=
  (tracks.filter (keepTrack already)).map trackUrl

/-- Claim C1, as stated, is false: a track whose `videoId` is present but
equal to the empty string has a present identifier and (over an empty local
library) no matching token, so the claim puts its URL in the queue; the code's
falsy test `if not video_id` skips it instead. -/
theorem c1_counterexample :
    build_download_queue [{ title := some "T", videoId := some "" }] [] ≠
      queue_claim [{ title := some "T", videoId := some "" }] [] := by
  decide

/-- Claim C1 (amended): the built queue consists exactly, in playlist order,
of the watch URLs of those tracks whose identifier is present and non-empty
and whose bracketed token `[videoId]` occurs in no local filename; all other
tracks are excluded. -/
theorem c1_queue_exact (tracks : List Track) (already : List String) :
    build_download_queue tracks already = queue_spec tracks already := by
  induction tracks with
  | nil => rfl
  | cons t rest ih =>
    cases h : t.videoId with
    | none =>
      have hk : keepTrack already t = false := by simp [keepTrack, h]
      simp only [build_download_queue, h, queue_spec, List.filter_cons, hk,
        Bool.false_eq_true, if_false]
      exact ih
    | some vid =>
      simp only [build_download_queue, h, queue_spec, List.filter_cons]
      by_cases hv : vid = ""
      · have hk : keepTrack already t = false := by simp [keepTrack, h, hv]
        rw [if_pos hv, hk]
        simp only [Bool.false_eq_true, if_false]
        exact ih
      · by_cases hm :
          (already.any fun filename => strContains filename ("[" ++ vid ++ "]")) = true
        · have hk : keepTrack already t = false := by
            simp [keepTrack, h, hv, tokenMatches, hm]
          rw [if_neg hv, if_pos hm, hk]
          simp only [Bool.false_eq_true, if_false]
          exact ih
        · have hk : keepTrack already t = true := by
            simp [keepTrack, h, hv, tokenMatches, hm]
          rw [if_neg hv, if_neg hm, hk]
          simp only [if_true, List.map_cons]
          rw [ih, queue_spec]
          simp only [trackUrl, h, Option.getD_some]

/-- The `info_dict` payload fields read by the hook: `title` and `webpage_url`. -/
structure InfoDict where
  title : Option String := none
  webpage_url : Option String := none
deriving DecidableEq

/-- A yt-dlp progress-hook event dictionary, restricted to the keys the hook
reads.  Every field is optional: a missing dictionary key is `none`. -/
structure Event where
  status : Option String := none
  total_bytes : Option Nat := none
  total_bytes_estimate : Option Nat := none
  downloaded_bytes : Option Nat := none
  filename : Option String := none
  error : Option String := none
  info_dict : Option InfoDict := none
deriving DecidableEq

/-- Python `a or b` on an optional number: `None` and `0` are both falsy. -/
def pyOrNat (a : Option Nat) (b : Nat) : Nat :=
  match a with
  | some n => if n = 0 then b else n
  | none => b

/-- The bar total chosen when a per-item bar is created:
`d.get("total_bytes") or d.get("total_bytes_estimate") or 0`. -/
def totalOf (d : Event) : Nat :=
  pyOrNat d.total_bytes (pyOrNat d.total_bytes_estimate 0)

/-- Python `d.get("info_dict", {}).get("title", fallback)`. -/
def infoTitle (d : Event) (fallback : String) : String :=
  ((d.info_dict.getD {}).title).getD fallback

/-- Python `d.get("info_dict", {}).get("webpage_url")`. -/
def infoUrl (d : Event) : Option String :=
  (d.info_dict.getD {}).webpage_url

/-- Python `str` applied to an optional string (`str(None) = "None"`),
as interpolated into the error log line. -/
def pyStr : Option String → String
  | none => "None"
  | some s => s

/-- The final path component of a POSIX path (characters after the last `/`). -/
def lastComponent (cs : List Char) : List Char :=
  cs.foldl (fun acc c => if c = '/' then [] else acc ++ [c]) []

/-- Index of the last `.` in a name, if any (Python `name.rfind`). -/
def lastDotIdx (nm : List Char) : Option Nat :=
  (List.range nm.length).foldl
    (fun acc i => if nm.getD i ' ' = '.' then some i else acc) none

/-- Embedding of `pathlib.Path(p).stem` for ordinary POSIX paths (no trailing
separator, no `.`/`..` components): the last component without its final
suffix, where a leading or trailing dot does not start a suffix. -/
def stemOf (p : String) : String :=
  let nm := lastComponent p.toList
  match lastDotIdx nm with
  | some i => if 0 < i ∧ i < nm.length - 1 then String.mk (nm.take i) else String.mk nm
  | none => String.mk nm

/-- A tqdm progress bar as observed by the hook: its configured `total`, its
current position `n` (an integer: `update` adds a possibly negative delta),
and its description string. -/
structure Bar where
  total : Nat
  n : Int
  desc : String
deriving DecidableEq

/-- The mutable module-level state touched by `progress_hook`,
`update_playlist` and `download_songs`: the optional per-item bar, the
aggregate bar position, the accumulated failed URLs, the lines appended to the
playlist file so far (each element is one line; the source terminates each
with a newline), and the `tqdm.write`/`logging.error` messages emitted. -/
structure HookState where
  individual : Option Bar
  global_count : Nat
  failed_urls : List String
  playlist_lines : List String
  writes : List String
deriving DecidableEq

/-- The module-level state at interpreter start: no bars, no failures, and no
lines appended yet. -/
def initHookState : HookState :=
  { individual := none, global_count := 0, failed_urls := [],
    playlist_lines := [], writes := [] }

/-- The ASCII apostrophe, as used in the source's log message templates. -/
def quoteChar : String := String.singleton (Char.ofNat 39)

/-- Embedding of `update_playlist(filename, title)`: append one line
`/srv/music/<filename>` to the playlist file (opened in append mode, so all
previous lines persist unchanged) and emit the confirmation message. -/
def update_playlist (st : HookState) (filename title : String) : HookState :=
  { st with
    playlist_lines := st.playlist_lines ++ ["/srv/music/" ++ filename],
    writes := st.writes ++ ["Added " ++ quoteChar ++ title ++ quoteChar ++ " to playlist."] }

/-- Embedding of `progress_hook(d)` from src/main.py, as a transition on the
module state.  The tqdm bar objects are modelled by presence (`Option Bar`);
`individual_progress_bar.update(x)` adds `x` to the bar position.  Every
dictionary access in the source uses `.get` with a default, mirrored by
`Option.getD`, so the transition is total over the event space. -/
def progress_hook (st : HookState) (d : Event) : HookState :=
  if d.status = some "downloading" then
    match st.individual with
    | none =>
      { st with
        individual := some
          { total := totalOf d, n := 0,
            desc := "Downloading: " ++ infoTitle d "Downloading" } }
    | some bar =>
      let downloaded : Int := (d.downloaded_bytes.getD 0 : Nat)
      { st with individual := some { bar with n := bar.n + (downloaded - bar.n) } }
  else if d.status = some "finished" then
    let st1 := { st with individual := none, global_count := st.global_count + 1 }
    let filepath := d.filename.getD ""
    let filename := stemOf filepath ++ ".mp3"
    let title := infoTitle d "Unknown Title"
    let st2 := update_playlist st1 filename title
    { st2 with writes := st2.writes ++ ["Finished downloading: " ++ title] }
  else if d.status = some "error" then
    let st1 := { st with individual := none }
    let error_msg := d.error.getD "Unknown error"
    let failed_url := infoUrl d
    let st2 :=
      { st1 with writes := st1.writes ++
          ["Error downloading " ++ pyStr failed_url ++ ": " ++ error_msg] }
    let st3 :=
      match failed_url with
      | none => st2
      | some u =>
        if u = "" then st2
        else if st2.failed_urls.contains u then st2
        else { st2 with failed_urls := st2.failed_urls ++ [u] }
    { st3 with global_count := st3.global_count + 1 }
  else
    st

/-- Processing of a whole event stream by the hook. -/
def run_hook (st : HookState) (es : List Event) : HookState :=
  es.foldl progress_hook st

/-- Is the event a terminal ("finished" or "error") lifecycle event? -/
def isTerminal (d : Event) : Bool :=
  d.status == some "finished" || d.status == some "error"

/-- The effect of one hook invocation on the failed-URL list alone: an
"error" event appends its source URL when the URL is present, non-empty and
not already recorded; every other event leaves the list unchanged. -/
def failedStep (acc : List String) (d : Event) : List String :=
  if d.status = some "error" then
    match infoUrl d with
    | none => acc
    | some u =>
      if u = "" then acc
      else if acc.contains u then acc
      else acc ++ [u]
  else acc

/-- The failed-URL list recorded over a whole event stream, starting empty. -/
def pass_failures (es : List Event) : List String :=
  List.foldl failedStep [] es

theorem hook_failed (st : HookState) (d : Event) :
    (progress_hook st d).failed_urls = failedStep st.failed_urls d := by
  unfold progress_hook failedStep
  by_cases h1 : d.status = some "downloading"
  · rw [if_pos h1, if_neg (by rw [h1]; decide)]
    cases st.individual <;> rfl
  · rw [if_neg h1]
    by_cases h2 : d.status = some "finished"
    · rw [if_pos h2, if_neg (by rw [h2]; decide)]
      rfl
    · rw [if_neg h2]
      by_cases h3 : d.status = some "error"
      · rw [if_pos h3, if_pos h3]
        cases hu : infoUrl d with
        | none => simp only [hu]
        | some u => simp only [hu]; split_ifs <;> rfl
      · rw [if_neg h3, if_neg h3]

theorem hook_count (st : HookState) (d : Event) :
    (progress_hook st d).global_count
      = st.global_count + (if isTerminal d then 1 else 0) := by
  unfold progress_hook
  by_cases h1 : d.status = some "downloading"
  · have ht : isTerminal d = false := by simp [isTerminal, h1]
    rw [if_pos h1, ht]
    simp only [Bool.false_eq_true, if_false, Nat.add_zero]
    cases st.individual <;> rfl
  · rw [if_neg h1]
    by_cases h2 : d.status = some "finished"
    · have ht : isTerminal d = true := by simp [isTerminal, h2]
      rw [if_pos h2, ht]
      simp only [if_true]
      rfl
    · rw [if_neg h2]
      by_cases h3 : d.status = some "error"
      · have ht : isTerminal d = true := by simp [isTerminal, h3]
        rw [if_pos h3, ht]
        simp only [if_true]
        cases hu : infoUrl d with
        | none => simp only [hu]
        | some u => simp only [hu]; split_ifs <;> rfl
      · have ht : isTerminal d = false := by simp [isTerminal, h2, h3]
        rw [if_neg h3, ht]
        simp

theorem run_count (es : List Event) : ∀ st : HookState,
    (run_hook st es).global_count = st.global_count + es.countP isTerminal := by
  induction es with
  | nil => intro st; simp [run_hook]
  | cons e es ih =>
    intro st
    have h : run_hook st (e :: es) = run_hook (progress_hook st e) es := rfl
    rw [h, ih, hook_count, List.countP_cons]
    by_cases ht : isTerminal e = true
    · simp only [ht, if_true]
      omega
    · simp only [ht, Bool.false_eq_true, if_false]
      omega

theorem run_failed (es : List Event) : ∀ st : HookState,
    (run_hook st es).failed_urls = List.foldl failedStep st.failed_urls es := by
  induction es with
  | nil => intro st; rfl
  | cons e es ih =>
    intro st
    have h : run_hook st (e :: es) = run_hook (progress_hook st e) es := rfl
    rw [h, ih, hook_failed]
    rfl

theorem failedStep_nodup (acc : List String) (d : Event) (h : acc.Nodup) :
    (failedStep acc d).Nodup := by
  unfold failedStep
  split_ifs with h1
  · cases hu : infoUrl d with
    | none => simpa only [hu] using h
    | some u =>
      simp only [hu]
      split_ifs with h2 h3
      · exact h
      · exact h
      · have hmem : u ∉ acc := by simpa using h3
        simp [List.nodup_append, h, hmem]
  · exact h

/-- The configuration fields the download pipeline consumes after loading:
`cookies_filepath` is the only optional entry (`COOKIES_FILEPATH`), and
`music_folderpath` is threaded into the yt-dlp options. -/
structure Config where
  cookies_filepath : Option String
  music_folderpath : String
deriving DecidableEq

/-- Python truthiness of `config.get("cookies_filepath")`: a missing value
and an empty-string value are both falsy. -/
def cookiesTruthy (config : Config) : Bool :=
  match config.cookies_filepath with
  | some s => !(s == "")
  | none => false

/-- The yt-dlp option dictionary built by `create_youtube_dl_options`,
restricted to its literal entries. -/
structure Opts where
  format : String
  home_path : String
  quiet : Bool
  noplaylist : Bool
  postprocessors : List String
  ignoreerrors : Bool
  cookiefile : Option String
deriving DecidableEq

/-- Embedding of `create_youtube_dl_options(config, use_cookies)`:
the fixed option set, with `cookiefile` added exactly when `use_cookies` is
true and a truthy `cookies_filepath` is configured. -/
def create_youtube_dl_options (config : Config) (use_cookies : Bool) : Opts :=
  { format := "mp3/bestaudio/best",
    home_path := config.music_folderpath,
    quiet := true,
    noplaylist := true,
    postprocessors := ["FFmpegExtractAudio", "EmbedThumbnail", "FFmpegMetadata"],
    ignoreerrors := true,
    cookiefile :=
      if use_cookies && cookiesTruthy config then config.cookies_filepath else none }

set_option linter.unusedVariables false in
/-- Embedding of `download_songs(songs_to_download, youtube_dl_opts)`: a fresh
aggregate bar is created (position 0, total `songs.length`), the engine runs
over the URL list — its hook events are the input stream `events` — and the
module state evolves by `progress_hook` over that stream.  The engine and its
options are external, so the emitted events are a parameter. -/
def download_songs (st : HookState) (songs : List String) (opts : Opts)
    (events : List Event) : HookState :=
  run_hook { st with global_count := 0 } events

/-- The observable outcome of one `main()` run (after successful
configuration loading): process exit code, number of download passes invoked,
whether the retry pass ran and over which list and options, and the final
module state (failed URLs, playlist lines, counters). -/
structure MainResult where
  exit_code : Nat
  passes : Nat
  retried : Bool
  retry_list : List String
  retry_opts : Option Opts
  final_state : HookState
deriving DecidableEq

/-- Embedding of the pipeline portion of `main()` from src/main.py: build the
queue; if it is empty, `sys.exit(0)` with no pass; otherwise run pass 1
without cookies; if failures remain and a truthy cookies path is configured,
snapshot the failures, clear the list, and run exactly one retry pass with
cookies; finally return (exit code 0 in every completed path).  The two event
streams are the engine's hook emissions for the two passes. -/
def mainModel (config : Config) (tracks : List Track) (already : List String)
    (events1 events2 : List Event) : MainResult :=
  let queue := build_download_queue tracks already
  if queue.isEmpty then
    { exit_code := 0, passes := 0, retried := false, retry_list := [],
      retry_opts := none, final_state := initHookState }
  else
    let opts1 := create_youtube_dl_options config false
    let s1 := download_songs initHookState queue opts1 events1
    if !s1.failed_urls.isEmpty && cookiesTruthy config then
      let retry_list := s1.failed_urls
      let s1c := { s1 with failed_urls := [] }
      let optsRetry := create_youtube_dl_options config true
      let s2 := download_songs s1c retry_list optsRetry events2
      { exit_code := 0, passes := 2, retried := true, retry_list := retry_list,
        retry_opts := some optsRetry, final_state := s2 }
    else
      { exit_code := 0, passes := 1, retried := false, retry_list := [],
        retry_opts := none, final_state := s1 }

/-- Claim C2: over one download pass, if the submitted items cause exactly
`songs.length` terminal ("finished" or "error") events to reach the hook,
the aggregate counter ends at exactly `songs.length`, regardless of how the
terminal events split between successes and errors. -/
theorem c2_aggregate_count (songs : List String) (opts : Opts) (st : HookState)
    (events : List Event) (h : events.countP isTerminal = songs.length) :
    (download_songs st songs opts events).global_count = songs.length := by
  unfold download_songs
  rw [run_count]
  simpa using h

/-- Witness for claim C2: a two-item pass in which one item finishes and one
errors ends with the aggregate counter at 2. -/
theorem c2_aggregate_count_witness :
    (download_songs initHookState
        ["https://music.youtube.com/watch?v=a", "https://music.youtube.com/watch?v=b"]
        (create_youtube_dl_options
          { cookies_filepath := none, music_folderpath := "/data/music" } false)
        [{ status := some "finished", filename := some "a [a].webm" },
         { status := some "error",
           info_dict := some
             { webpage_url := some "https://music.youtube.com/watch?v=b" } }]).global_count
      = 2 :=
  c2_aggregate_count _ _ _ _ (by decide)

/-- Claim C5: whatever sequence of events a pass delivers, the failed-URL
list never acquires a duplicate entry, even when several error events carry
the same source URL. -/
theorem c5_failed_nodup (es : List Event) : ∀ st : HookState,
    st.failed_urls.Nodup → (run_hook st es).failed_urls.Nodup := by
  induction es with
  | nil =>
    intro st h
    simpa [run_hook] using h
  | cons e es ih =>
    intro st h
    have hr : run_hook st (e :: es) = run_hook (progress_hook st e) es := rfl
    rw [hr]
    refine ih _ ?_
    rw [hook_failed]
    exact failedStep_nodup _ _ h

/-- Witness for claim C5: two error events with the same source URL leave a
duplicate-free failed-URL list. -/
theorem c5_failed_nodup_witness :
    (run_hook initHookState
        [{ status := some "error", info_dict := some { webpage_url := some "u" } },
         { status := some "error",
           info_dict := some { webpage_url := some "u" } }]).failed_urls.Nodup :=
  c5_failed_nodup _ initHookState (by simp [initHookState])

/-- The per-item byte count currently displayed (0 when no bar is open). -/
def displayedBytes (st : HookState) : Int :=
  match st.individual with
  | some bar => bar.n
  | none => 0

/-- Claim C6, as stated, is false: after a tracker has advanced to 100 bytes,
a "downloading" event that omits the cumulative-bytes field makes the hook
call `update(0 - 100)`, so the displayed per-item count decreases (to 0). -/
theorem c6_counterexample :
    displayedBytes
        (run_hook initHookState
          [{ status := some "downloading", total_bytes := some 1000 },
           { status := some "downloading", downloaded_bytes := some 100 },
           { status := some "downloading" }])
      < displayedBytes
          (run_hook initHookState
            [{ status := some "downloading", total_bytes := some 1000 },
             { status := some "downloading", downloaded_bytes := some 100 }]) := by
  decide

/-- Claim C6 (amended): on a "downloading" event with an active tracker, the
tracker advances by the difference between the event's reported cumulative
byte count — 0 when the field is omitted — and its last position, i.e. its
position becomes exactly the reported count; the displayed count therefore
decreases whenever the reported count is below the last position, in
particular when the cumulative-bytes field is omitted after progress. -/
theorem c6_tracker_delta (st : HookState) (d : Event) (bar : Bar)
    (hbar : st.individual = some bar) (hst : d.status = some "downloading") :
    (progress_hook st d).individual
      = some { bar with n := bar.n + (((d.downloaded_bytes.getD 0 : Nat) : Int) - bar.n) }
    ∧ bar.n + (((d.downloaded_bytes.getD 0 : Nat) : Int) - bar.n)
        = ((d.downloaded_bytes.getD 0 : Nat) : Int) := by
  constructor
  · unfold progress_hook
    rw [if_pos hst, hbar]
  · ring

/-- Witness for claim C6 (amended): a tracker at position 50 receiving a
report of 100 cumulative bytes moves to position 100. -/
theorem c6_tracker_delta_witness :
    (progress_hook
        { initHookState with individual := some { total := 1000, n := 50, desc := "d" } }
        { status := some "downloading", downloaded_bytes := some 100 }).individual
      = some { total := 1000, n := 100, desc := "d" } := by
  have h := c6_tracker_delta
      { initHookState with individual := some { total := 1000, n := 50, desc := "d" } }
      { status := some "downloading", downloaded_bytes := some 100 }
      { total := 1000, n := 50, desc := "d" } rfl rfl
  rw [h.1]
  decide

/-- Claim C7: every "finished" event appends exactly one line to the playlist
file — `/srv/music/` followed by the reported path's base name with its
extension forced to `.mp3` — and, the file being opened in append mode, all
previously written lines persist unchanged and in order. -/
theorem c7_playlist_append (st : HookState) (d : Event)
    (h : d.status = some "finished") :
    (progress_hook st d).playlist_lines
      = st.playlist_lines
          ++ ["/srv/music/" ++ (stemOf (d.filename.getD "") ++ ".mp3")] := by
  unfold progress_hook
  rw [if_neg (by rw [h]; decide), if_pos h]
  rfl

/-- Witness for claim C7: finishing `/data/music/Song [abc].webm` appends the
single line `/srv/music/Song [abc].mp3`. -/
theorem c7_playlist_append_witness :
    (progress_hook initHookState
        { status := some "finished",
          filename := some "/data/music/Song [abc].webm",
          info_dict := some { title := some "Song" } }).playlist_lines
      = ["/srv/music/Song [abc].mp3"] := by
  rw [c7_playlist_append initHookState
    { status := some "finished",
      filename := some "/data/music/Song [abc].webm",
      info_dict := some { title := some "Song" } } rfl]
  decide

/-- Claim C8: the hook is a total function of the event — it is defined for
every combination of missing fields — and missing fields are replaced by the
documented defaults: a "downloading" event with no byte counts opens a bar
sized 0 with the fallback description; a "finished" event with no filename
and no title appends `/srv/music/.mp3` and reports "Unknown Title"; an
"error" event with no payload leaves the failed list unchanged while still
counting; an event with no status at all leaves the state untouched. -/
theorem c8_defaults (st : HookState) :
    (progress_hook { st with individual := none }
        { status := some "downloading" }).individual
      = some { total := 0, n := 0, desc := "Downloading: Downloading" }
    ∧ (progress_hook st { status := some "finished" }).playlist_lines
        = st.playlist_lines ++ ["/srv/music/.mp3"]
    ∧ (progress_hook st { status := some "finished" }).writes
        = st.writes
            ++ ["Added " ++ quoteChar ++ "Unknown Title" ++ quoteChar ++ " to playlist."]
            ++ ["Finished downloading: Unknown Title"]
    ∧ (progress_hook st { status := some "error" }).failed_urls = st.failed_urls
    ∧ (progress_hook st { status := some "error" }).global_count = st.global_count + 1
    ∧ progress_hook st {} = st := by
  refine ⟨?_, ?_, ?_, ?_, ?_, ?_⟩ <;> rfl

/-- Claim C9: an "error" event whose `info_dict` carries no `webpage_url`
still advances the aggregate counter by exactly 1 but records nothing in the
failed-URL list, so that failure can never reach the retry pass or the final
report. -/
theorem c9_error_without_url (st : HookState) (d : Event)
    (hst : d.status = some "error") (hurl : infoUrl d = none) :
    (progress_hook st d).global_count = st.global_count + 1
    ∧ (progress_hook st d).failed_urls = st.failed_urls := by
  unfold progress_hook
  rw [if_neg (by rw [hst]; decide), if_neg (by rw [hst]; decide), if_pos hst]
  simp [hurl]

/-- Witness for claim C9: an error event with an empty payload counts one
item and records no failed URL. -/
theorem c9_error_without_url_witness :
    (progress_hook initHookState { status := some "error" }).global_count = 1
    ∧ (progress_hook initHookState { status := some "error" }).failed_urls = [] :=
  c9_error_without_url initHookState { status := some "error" } rfl rfl

/-- Claim C3: with a non-empty queue, the retry pass runs if and only if
pass 1 left a non-empty failed-URL list and a (truthy) cookies path is
configured; when it runs, it runs over exactly the snapshot of the pass-1
failures, with options whose `cookiefile` is the configured cookies path, and
from a state whose failed-URL list has been cleared; at most two passes ever
occur. -/
theorem c3_retry_condition (config : Config) (tracks : List Track)
    (already : List String) (e1 e2 : List Event)
    (hq : build_download_queue tracks already ≠ []) :
    let queue := build_download_queue tracks already
    let s1 := download_songs initHookState queue
        (create_youtube_dl_options config false) e1
    let r := mainModel config tracks already e1 e2
    (r.retried = true ↔ (s1.failed_urls ≠ [] ∧ cookiesTruthy config = true))
    ∧ (r.retried = true →
        r.retry_list = s1.failed_urls
        ∧ r.retry_opts = some (create_youtube_dl_options config true)
        ∧ (create_youtube_dl_options config true).cookiefile = config.cookies_filepath
        ∧ r.final_state = download_songs { s1 with failed_urls := [] }
            s1.failed_urls (create_youtube_dl_options config true) e2)
    ∧ r.passes ≤ 2 := by
  intro queue s1 r
  have hqe : ¬ queue.isEmpty = true := by
    cases hcq : queue with
    | nil => exact absurd hcq hq
    | cons a l => simp [hcq]
  by_cases hc : (!s1.failed_urls.isEmpty && cookiesTruthy config) = true
  · have hck : cookiesTruthy config = true := (Bool.and_eq_true _ _ |>.mp hc).2
    have hr : r = { exit_code := 0, passes := 2, retried := true,
                     retry_list := s1.failed_urls,
                     retry_opts := some (create_youtube_dl_options config true),
                     final_state := download_songs { s1 with failed_urls := [] }
                       s1.failed_urls (create_youtube_dl_options config true) e2 } := by
      show mainModel config tracks already e1 e2 = _
      rw [mainModel]
      simp only [hqe, hc, Bool.false_eq_true, if_false, if_true]
    rw [hr]
    refine ⟨?_, ?_, ?_⟩
    · simp only [true_iff]
      refine ⟨?_, hck⟩
      intro heq
      have h1 := hc
      rw [heq] at h1
      simp at h1
    · intro _
      refine ⟨rfl, rfl, ?_, rfl⟩
      simp [create_youtube_dl_options, hck]
    · simp
  · have hr : r = { exit_code := 0, passes := 1, retried := false,
                     retry_list := [], retry_opts := none, final_state := s1 } := by
      show mainModel config tracks already e1 e2 = _
      rw [mainModel]
      simp only [hqe, hc, Bool.false_eq_true, if_false, if_true]
    rw [hr]
    refine ⟨?_, ?_, ?_⟩
    · simp only [Bool.false_eq_true, false_iff]
      intro hcon
      apply hc
      have h2 : s1.failed_urls.isEmpty = false := by
        cases hfe : s1.failed_urls with
        | nil => exact absurd hfe hcon.1
        | cons a l => rfl
      simp [h2, hcon.2]
    · intro hcon
      simp at hcon
    · simp

/-- Claim C10: when the built queue is empty, the run exits immediately with
code 0, no download pass is invoked, and no retry occurs. -/
theorem c10_empty_queue (config : Config) (tracks : List Track)
    (already : List String) (e1 e2 : List Event)
    (hq : build_download_queue tracks already = []) :
    (mainModel config tracks already e1 e2).exit_code = 0
    ∧ (mainModel config tracks already e1 e2).passes = 0
    ∧ (mainModel config tracks already e1 e2).retried = false := by
  rw [mainModel]
  simp [hq]

theorem download_failed (st : HookState) (songs : List String) (opts : Opts)
    (events : List Event) :
    (download_songs st songs opts events).failed_urls
      = List.foldl failedStep st.failed_urls events := by
  unfold download_songs
  rw [run_failed]

/-- Claim C4: when the retry pass runs, the failure set at the end of the run
is exactly the set of URLs recorded as failing during pass 2, so every pass-1
failure that is not recorded again in pass 2 is absent from the final report;
the run still completes (exit code 0, failures reported as data), and exactly
two passes occur — no further retry. -/
theorem c4_final_failures (config : Config) (tracks : List Track)
    (already : List String) (e1 e2 : List Event)
    (hr : (mainModel config tracks already e1 e2).retried = true) :
    (mainModel config tracks already e1 e2).final_state.failed_urls = pass_failures e2
    ∧ (∀ u, u ∈ (mainModel config tracks already e1 e2).retry_list →
        u ∉ pass_failures e2 →
        u ∉ (mainModel config tracks already e1 e2).final_state.failed_urls)
    ∧ (mainModel config tracks already e1 e2).exit_code = 0
    ∧ (mainModel config tracks already e1 e2).passes = 2 := by
  by_cases hq : (build_download_queue tracks already).isEmpty = true
  · rw [mainModel] at hr
    simp [hq] at hr
  · by_cases hc : (!(download_songs initHookState (build_download_queue tracks already)
        (create_youtube_dl_options config false) e1).failed_urls.isEmpty
          && cookiesTruthy config) = true
    · have hm : mainModel config tracks already e1 e2
          = { exit_code := 0, passes := 2, retried := true,
              retry_list := (download_songs initHookState
                (build_download_queue tracks already)
                (create_youtube_dl_options config false) e1).failed_urls,
              retry_opts := some (create_youtube_dl_options config true),
              final_state := download_songs
                { (download_songs initHookState (build_download_queue tracks already)
                    (create_youtube_dl_options config false) e1) with failed_urls := [] }
                (download_songs initHookState (build_download_queue tracks already)
                  (create_youtube_dl_options config false) e1).failed_urls
                (create_youtube_dl_options config true) e2 } := by
        rw [mainModel]
        simp only [hq, hc, Bool.false_eq_true, if_false, if_true]
      have hff : ∀ (s : HookState) (songs : List String) (opts : Opts),
          (download_songs { s with failed_urls := [] } songs opts e2).failed_urls
            = pass_failures e2 := by
        intro s songs opts
        unfold download_songs
        rw [run_failed]
        rfl
      have hfinal : (mainModel config tracks already e1 e2).final_state.failed_urls
          = pass_failures e2 := by
        rw [hm]
        exact hff
          (download_songs initHookState (build_download_queue tracks already)
            (create_youtube_dl_options config false) e1)
          (download_songs initHookState (build_download_queue tracks already)
            (create_youtube_dl_options config false) e1).failed_urls
          (create_youtube_dl_options config true)
      refine ⟨hfinal, ?_, ?_, ?_⟩
      · intro u hu hnot
        rw [hfinal]
        exact hnot
      · rw [hm]
      · rw [hm]
    · rw [mainModel] at hr
      simp [hq, hc] at hr

/-- A sample configuration with a cookies file set, used by the witnesses. -/
def cfgSmp : Config :=
  { cookies_filepath := some "cookies.txt", music_folderpath := "/data/music" }

/-- A sample one-track playlist, used by the witnesses. -/
def trkSmp : List Track := [{ title := some "Song A", videoId := some "vidA" }]

/-- A sample error event carrying the sample track's watch URL. -/
def errEvSmp : Event :=
  { status := some "error",
    info_dict := some
      { webpage_url := some "https://music.youtube.com/watch?v=vidA" } }

/-- Witness for claim C3: with a cookies file configured and pass 1 failing
on the single queued URL, the retry pass runs. -/
theorem c3_retry_condition_witness :
    (mainModel cfgSmp trkSmp [] [errEvSmp] []).retried = true := by
  have h := c3_retry_condition cfgSmp trkSmp [] [errEvSmp] [] (by decide)
  exact h.1.mpr ⟨by decide, by decide⟩

/-- Witness for claim C4: in the same scenario with an empty pass-2 stream,
the final failure report equals the (empty) pass-2 failure set. -/
theorem c4_final_failures_witness :
    (mainModel cfgSmp trkSmp [] [errEvSmp] []).final_state.failed_urls
      = pass_failures [] := by
  have h := c4_final_failures cfgSmp trkSmp [] [errEvSmp] [] (by decide)
  exact h.1

/-- Witness for claim C10: with no tracks the queue is empty, and the run
exits with code 0 having invoked no pass. -/
theorem c10_empty_queue_witness :
    (mainModel cfgSmp [] [] [] []).exit_code = 0
    ∧ (mainModel cfgSmp [] [] [] []).passes = 0 := by
  have h := c10_empty_queue cfgSmp [] [] [] [] (by decide)
  exact ⟨h.1, h.2.1⟩
